import Mathlib

/-!
Shallow embedding of `src/index.js` (an Express server exposing `GET /scrape`
that drives a headless browser and captures the first network request whose
URL ends in ".m3u8").

The stateful request-interception handler (lines 49-101 of the source) is
embedded as a step function `handleRequest` on an explicit `SessionState`,
folded over the list of intercepted requests by `runSession`.  The whole of
`findMinimalM3u8Link` (lines 11-159) is embedded as a function of the
explicit outcomes of its effectful steps (launch, page setup, the best-effort
interception disable, navigation, and `browser.close`).
-/

namespace TestServer

/-- Manifest suffix used at line 54 of the source: `requestUrl.endsWith(".m3u8")`. -/
def manifestSuffix : String := ".m3u8"

/-- Embeds the capture test `requestUrl.endsWith(".m3u8")` (line 54).
JavaScript `String.prototype.endsWith` is an exact, case-sensitive suffix
test on the character sequence. -/
def qualifies (u : String) : Bool := manifestSuffix.data.isSuffixOf u.data

/-- JavaScript truthiness of the `m3u8Link` variable: `!m3u8Link` is true
exactly when the variable is `null` or the empty string. -/
def jsFalsy : Option String → Bool
  | none => true
  | some s => s = ""

/-- JavaScript truthiness of the `url` argument of `findMinimalM3u8Link`
(line 12, `if (!url)`): absent (`null`/`undefined`) or empty means falsy. -/
def jsFalsyUrl : Option String → Bool
  | none => true
  | some s => s = ""

/-- One intercepted network request as seen by the `page.on("request")`
handler: its URL (line 52) and whether its interception decision was already
resolved elsewhere when the handler checks
`request.isInterceptResolutionHandled()` (lines 76, 85, 94). -/
structure Request where
  url : String
  handled : Bool
deriving DecidableEq, Repr

/-- Outcome of one request's interception decision.
`continued`: `request.continue()` was issued, the request proceeds to
completion.  `aborted`: `request.abort()` was issued.  `preResolved`: the
decision was already resolved, the handler skips (lines 76, 85, 94).
`passedThrough`: interception had been disabled (line 66), so the request is
not intercepted at all and proceeds to completion. -/
inductive Fate where
  | continued
  | aborted
  | preResolved
  | passedThrough
deriving DecidableEq, Repr

/-- How many `continue`/`abort` resolutions the handler issued for a request
with the given fate. -/
def resolutionsIssued : Fate → Nat
  | .continued => 1
  | .aborted => 1
  | .preResolved => 0
  | .passedThrough => 0

/-- Mutable per-session state of `findMinimalM3u8Link`: the captured link
variable `m3u8Link` (line 18), whether request interception is currently
enabled (line 47 enables it, line 66 disables it after capture), whether
`linkFoundResolver` has been called (line 60), and how many times `m3u8Link`
has been assigned (line 56), tracked to state the write-once invariant. -/
structure SessionState where
  m3u8Link : Option String
  interception : Bool
  linkSignaled : Bool
  writes : Nat
deriving DecidableEq, Repr

/-- State right after `page.setRequestInterception(true)` (line 47). -/
def initialState : SessionState :=
  { m3u8Link := none, interception := true, linkSignaled := false, writes := 0 }

/-- Embeds one invocation of the `page.on("request")` handler, lines 49-101.
`disableOk` records whether the best-effort
`currentPage.setRequestInterception(false)` at line 66 succeeds (the page
may be closed, or the call may throw; either failure is caught at line 68).
A request arriving while interception is disabled is not intercepted and
passes through.  Otherwise the handler: captures and aborts a qualifying
request when `!m3u8Link` (lines 54-81), continues a non-qualifying request
while `!m3u8Link` (lines 82-90), and aborts every request once the link is
set (lines 91-100); each `continue`/`abort` is skipped when the decision is
already resolved. -/
def handleRequest (disableOk : Bool) (s : SessionState) (r : Request) :
    SessionState × Fate :=
  if !s.interception then
    (s, .passedThrough)
  else if qualifies r.url && jsFalsy s.m3u8Link then
    let s' : SessionState :=
      { m3u8Link := some r.url
        interception := if disableOk then false else s.interception
        linkSignaled := true
        writes := s.writes + 1 }
    (s', if r.handled then .preResolved else .aborted)
  else if jsFalsy s.m3u8Link then
    (s, if r.handled then .preResolved else .continued)
  else
    (s, if r.handled then .preResolved else .aborted)

/-- Folds the interception handler over the requests the transport delivers,
in order, returning the final session state and each request's fate. -/
def runSession (disableOk : Bool) (s : SessionState) :
    List Request → SessionState × List Fate
  | [] => (s, [])
  | r :: rs =>
    let step := handleRequest disableOk s r
    let rest := runSession disableOk step.1 rs
    (rest.1, step.2 :: rest.2)

/-- Outcome of `page.goto(url, ...)` (lines 108-121): the navigation promise
either resolves or rejects with an error message. -/
inductive NavOutcome where
  | success
  | failure (msg : String)
deriving DecidableEq, Repr

/-- Severity of a console message. -/
inductive LogLevel where
  | info
  | warn
  | error
deriving DecidableEq, Repr

/-- Embeds the `.catch` attached to `page.goto` (lines 110-121): a rejected
navigation is only logged (as a warning when no link was captured yet, as an
informational message otherwise); nothing is rethrown and no state changes. -/
def navCatchLog (nav : NavOutcome) (link : Option String) :
    List (LogLevel × String) :=
  match nav with
  | .success => []
  | .failure e =>
    if jsFalsy link then
      [(.warn, "Navigation potentially failed before M3U8 link found: " ++ e)]
    else
      [(.info, "Navigation ended (or timed out), but M3U8 link was already found.")]

/-- Error message for a rejected `browser.close()` in the `finally` block
(line 144), which is not wrapped in any try/catch. -/
def closeErrorMsg : String := "browser.close failed"

/-- Result of one call to `findMinimalM3u8Link`: the value it returns, or the
error it throws (`Except.error`); whether `puppeteer.launch` was invoked;
and the console output of the navigation catch. -/
structure FindOutcome where
  result : Except String (Option String)
  launched : Bool
  log : List (LogLevel × String)
deriving Repr

/-- Embeds `findMinimalM3u8Link` (lines 11-159).  Parameters record the
outcome of each effectful step: `launchOk` for `puppeteer.launch` (line 32),
`pageSetupOk` for `newPage`/`setUserAgent`/`setRequestInterception(true)`
(lines 41-47), `disableOk` for the best-effort interception disable after
capture (line 66), `trace` for the intercepted requests in delivery order,
`nav` for the navigation promise, `closeOk` for `browser.close()` (line 144).
A falsy `url` returns `null` before any launch (lines 12-15).  A failed
launch leaves `browser` null, so the `finally` block skips `close` and the
`catch` at line 134 swallows the error, returning `null`.  Otherwise the
`finally` block awaits `browser.close()` with no surrounding try/catch, so a
rejected close propagates out of the function, discarding even a captured
link. -/
def findMinimalM3u8Link (url : Option String)
    (launchOk pageSetupOk disableOk : Bool) (trace : List Request)
    (nav : NavOutcome) (closeOk : Bool) : FindOutcome :=
  if jsFalsyUrl url then
    { result := .ok none, launched := false, log := [] }
  else if !launchOk then
    { result := .ok none, launched := true, log := [] }
  else if !pageSetupOk then
    { result := if closeOk then .ok none else .error closeErrorMsg
      launched := true
      log := [] }
  else
    let s := (runSession disableOk initialState trace).1
    { result := if closeOk then .ok s.m3u8Link else .error closeErrorMsg
      launched := true
      log := navCatchLog nav s.m3u8Link }

/-- The hardcoded target URL (line 8). -/
def targetUrl : String := "https://www.bloomberg.com/live/us"

/-- The fixed deadline in milliseconds (line 9). -/
def findTimeout : Nat := 10000

/-- The HTTP response written by `res.send({ link: m3u8Link })` (lines
163-165): Express sends status 200 with a JSON body holding exactly the
`link` field. -/
structure ScrapeResponse where
  status : Nat
  link : Option String
deriving DecidableEq, Repr

/-- Embeds the `GET /scrape` handler (lines 7-166): it awaits
`findMinimalM3u8Link(targetUrl)` with no try/catch and sends the result; if
the awaited call rejects, the rejection propagates and no response is sent
(`Except.error`). -/
def scrapeHandler (launchOk pageSetupOk disableOk : Bool)
    (trace : List Request) (nav : NavOutcome) (closeOk : Bool) :
    Except String ScrapeResponse :=
  match (findMinimalM3u8Link (some targetUrl) launchOk pageSetupOk disableOk
      trace nav closeOk).result with
  | .ok link => .ok { status := 200, link := link }
  | .error e => .error e

/-- Embeds `Promise.race([linkFoundPromise, timeout])` (lines 127-130): the
await completes at the earlier of the capture signal's time and the
deadline; with no signal it completes at the deadline. -/
def promiseRace (signal : Option Nat) (deadline : Nat) : Nat :=
  match signal with
  | none => deadline
  | some t => min t deadline

/-- Requests the transport delivers strictly before time `d`, in order.  A
timed trace pairs each request with its delivery time. -/
def deliveredBefore (d : Nat) (tr : List (Nat × Request)) : List Request :=
  (tr.filter (fun e => e.1 < d)).map (fun e => e.2)

/-- Final captured link of a session over a timed trace: only requests
delivered before the deadline reach the handler while the wait is pending. -/
def timedResult (disableOk : Bool) (tr : List (Nat × Request)) : Option String :=
  ((runSession disableOk initialState (deliveredBefore findTimeout tr)).1).m3u8Link

end TestServer

namespace TestServer

/-- Truthiness of the hardcoded target URL: it is a non-empty string. -/
theorem targetUrl_truthy : jsFalsyUrl (some targetUrl) = false := by decide

/-- Every URL passing the capture test is non-empty. -/
theorem qualifies_ne_empty {v : String} (h : qualifies v = true) : v ≠ "" := by
  intro hv
  subst hv
  exact absurd h (by decide)

/-- Once a qualifying URL is stored in `m3u8Link`, the variable is truthy. -/
theorem jsFalsy_some_of_qualifies {v : String} (h : qualifies v = true) :
    jsFalsy (some v) = false := by
  simp only [jsFalsy, decide_eq_false_iff_not]
  exact qualifies_ne_empty h

/-- While `m3u8Link` is truthy, a handler invocation never changes state. -/
theorem handleRequest_fst_of_not_falsy (d : Bool) (s : SessionState) (r : Request)
    (h : jsFalsy s.m3u8Link = false) : (handleRequest d s r).1 = s := by
  unfold handleRequest
  cases hi : s.interception
  · simp
  · simp [h]

/-- A non-qualifying request never changes state. -/
theorem handleRequest_fst_of_not_qual (d : Bool) (s : SessionState) (r : Request)
    (h : qualifies r.url = false) : (handleRequest d s r).1 = s := by
  unfold handleRequest
  cases hi : s.interception
  · simp [hi]
  · simp [hi, h]
    split <;> rfl

/-- While `m3u8Link` is truthy, a whole session run never changes state. -/
theorem runSession_fst_of_not_falsy (d : Bool) (s : SessionState)
    (tr : List Request) (h : jsFalsy s.m3u8Link = false) :
    (runSession d s tr).1 = s := by
  induction tr generalizing s with
  | nil => rfl
  | cons r rs ih =>
    simp only [runSession]
    rw [handleRequest_fst_of_not_falsy d s r h]
    exact ih s h

/-- A run over requests none of which qualifies never changes state. -/
theorem runSession_fst_of_no_qual (d : Bool) (s : SessionState)
    (tr : List Request) (h : ∀ r ∈ tr, qualifies r.url = false) :
    (runSession d s tr).1 = s := by
  induction tr generalizing s with
  | nil => rfl
  | cons r rs ih =>
    simp only [runSession]
    rw [handleRequest_fst_of_not_qual d s r (h r (List.mem_cons_self r rs))]
    exact ih s fun q hq => h q (List.mem_cons_of_mem r hq)

/-- Running a session over a concatenation runs the pieces in sequence. -/
theorem runSession_fst_append (d : Bool) (s : SessionState) (t1 t2 : List Request) :
    (runSession d s (t1 ++ t2)).1 = (runSession d (runSession d s t1).1 t2).1 := by
  induction t1 generalizing s with
  | nil => rfl
  | cons r rs ih =>
    simp only [List.cons_append, runSession]
    exact ih _

/-- From a fresh interception state, the final captured link is exactly the
URL of the first qualifying request of the trace. -/
theorem runSession_find (d : Bool) (s : SessionState) (tr : List Request)
    (h1 : s.m3u8Link = none) (h2 : s.interception = true) :
    (runSession d s tr).1.m3u8Link =
      (tr.find? (fun r => qualifies r.url)).map Request.url := by
  induction tr generalizing s with
  | nil => simpa [runSession] using h1
  | cons r rs ih =>
    by_cases hq : qualifies r.url = true
    · have hstep : handleRequest d s r =
          ({ m3u8Link := some r.url
             interception := if d then false else s.interception
             linkSignaled := true
             writes := s.writes + 1 },
           if r.handled then .preResolved else .aborted) := by
        unfold handleRequest
        simp [h1, h2, hq, jsFalsy]
      simp only [runSession, hstep]
      rw [runSession_fst_of_not_falsy _ _ _ (jsFalsy_some_of_qualifies hq)]
      simp [List.find?_cons, hq]
    · have hq' : qualifies r.url = false := by simpa using hq
      simp only [runSession]
      rw [handleRequest_fst_of_not_qual d s r hq']
      rw [ih s h1 h2]
      simp [List.find?_cons, hq']

/-- From a fresh interception state, the write counter ends at one exactly
when a link was captured, and at zero otherwise. -/
theorem runSession_writes (d : Bool) (s : SessionState) (tr : List Request)
    (h1 : s.m3u8Link = none) (h0 : s.writes = 0) :
    (runSession d s tr).1.writes =
      (if (runSession d s tr).1.m3u8Link.isSome then 1 else 0) := by
  induction tr generalizing s with
  | nil => simp [runSession, h1, h0]
  | cons r rs ih =>
    cases hi : s.interception
    · have hstep : handleRequest d s r = (s, .passedThrough) := by
        unfold handleRequest
        simp [hi]
      simp only [runSession, hstep]
      exact ih s h1 h0
    · by_cases hq : qualifies r.url = true
      · have hstep : handleRequest d s r =
            ({ m3u8Link := some r.url
               interception := if d then false else s.interception
               linkSignaled := true
               writes := s.writes + 1 },
             if r.handled then .preResolved else .aborted) := by
          unfold handleRequest
          simp [h1, hi, hq, jsFalsy]
        simp only [runSession, hstep]
        rw [runSession_fst_of_not_falsy _ _ _ (jsFalsy_some_of_qualifies hq)]
        simp [h0]
      · have hq' : qualifies r.url = false := by simpa using hq
        simp only [runSession, handleRequest_fst_of_not_qual d s r hq']
        exact ih s h1 h0

/-- Any link a session run captures from the fresh state passes the capture
test. -/
theorem runSession_link_qualifies (d : Bool) (tr : List Request) (u : String)
    (h : (runSession d initialState tr).1.m3u8Link = some u) :
    qualifies u = true := by
  rw [runSession_find d initialState tr rfl rfl] at h
  cases hf : tr.find? (fun r => qualifies r.url) with
  | none => rw [hf] at h; cases h
  | some r =>
    rw [hf] at h
    have hr := List.find?_some hf
    have : r.url = u := by simpa using h
    rwa [this] at hr

end TestServer

namespace TestServer

/-- C1: if at least one request whose URL ends in ".m3u8" is observed before
the deadline, `findMinimalM3u8Link` returns — and the `link` field of the
response carries — the URL of the first such request observed, no matter how
many qualifying requests are observed afterward. -/
theorem c1_first_qualifying_request_wins (d : Bool) (tr : List Request)
    (nav : NavOutcome) (r : Request)
    (h : tr.find? (fun q => qualifies q.url) = some r) :
    (findMinimalM3u8Link (some targetUrl) true true d tr nav true).result
      = .ok (some r.url)
    ∧ scrapeHandler true true d tr nav true
      = .ok { status := 200, link := some r.url } := by
  have hrun : (runSession d initialState tr).1.m3u8Link = some r.url := by
    rw [runSession_find d initialState tr rfl rfl, h]
    rfl
  constructor
  · simp [findMinimalM3u8Link, targetUrl_truthy, hrun]
  · simp [scrapeHandler, findMinimalM3u8Link, targetUrl_truthy, hrun]

/-- C1 witness: with two qualifying requests in the trace, the first one's
URL is returned. -/
theorem c1_witness :
    ([⟨"https://h/a.m3u8", false⟩, ⟨"https://h/b.m3u8", false⟩] :
        List Request).find? (fun q => qualifies q.url)
      = some ⟨"https://h/a.m3u8", false⟩
    ∧ (findMinimalM3u8Link (some targetUrl) true true true
        [⟨"https://h/a.m3u8", false⟩, ⟨"https://h/b.m3u8", false⟩]
        NavOutcome.success true).result = .ok (some "https://h/a.m3u8") := by
  refine ⟨by decide, ?_⟩
  exact (c1_first_qualifying_request_wins true
    [⟨"https://h/a.m3u8", false⟩, ⟨"https://h/b.m3u8", false⟩]
    NavOutcome.success ⟨"https://h/a.m3u8", false⟩ (by decide)).1

/-- C2 counterexample: in a session whose first request is qualifying (and is
captured and aborted) and where the best-effort interception disable
succeeds, the next request observed in the session is not intercepted at all
and proceeds to completion — it is not aborted, contradicting the claim that
every request observed after capture is aborted. -/
theorem c2_counterexample :
    (runSession true initialState
        [⟨"https://h/a.m3u8", false⟩, ⟨"https://h/img.png", false⟩]).1.m3u8Link
      = some "https://h/a.m3u8"
    ∧ (runSession true initialState
        [⟨"https://h/a.m3u8", false⟩, ⟨"https://h/img.png", false⟩]).2
      = [Fate.aborted, Fate.passedThrough]
    ∧ Fate.passedThrough ≠ Fate.aborted := by
  refine ⟨by decide, by decide, by decide⟩

/-- C2 amended: after the link has been captured, every request still
delivered to the interception handler (interception remains enabled) whose
decision is not already resolved is aborted; but once the post-capture
best-effort interception disable has succeeded, subsequent requests are no
longer intercepted and proceed to completion without being aborted. -/
theorem c2_amended_post_capture_aborts (d : Bool) (s : SessionState)
    (r : Request) (v : String) (hv : s.m3u8Link = some v)
    (hq : qualifies v = true) (hi : s.interception = true)
    (hh : r.handled = false) :
    (handleRequest d s r).2 = Fate.aborted
    ∧ ∀ (s' : SessionState) (q : Request), s'.interception = false →
        handleRequest d s' q = (s', Fate.passedThrough) := by
  constructor
  · have hfal : jsFalsy s.m3u8Link = false := by
      rw [hv]
      exact jsFalsy_some_of_qualifies hq
    unfold handleRequest
    simp [hi, hfal, hh]
  · intro s' q hi'
    unfold handleRequest
    simp [hi']

/-- C2 amended witness: with the link captured and interception still on, a
pending unresolved request is aborted. -/
theorem c2_amended_witness :
    (handleRequest true
      { m3u8Link := some "https://h/a.m3u8", interception := true
        linkSignaled := true, writes := 1 }
      ⟨"https://h/img.png", false⟩).2 = Fate.aborted :=
  (c2_amended_post_capture_aborts true
    { m3u8Link := some "https://h/a.m3u8", interception := true
      linkSignaled := true, writes := 1 }
    ⟨"https://h/img.png", false⟩ "https://h/a.m3u8"
    rfl (by decide) rfl rfl).1

/-- C3: a rejected `browser.close()` in the `finally` block is not caught
anywhere, so even after a successful capture the error propagates out of
`findMinimalM3u8Link` and rejects the `/scrape` handler's await — the
function does not always return a URL string or null. -/
theorem c3_close_failure_propagates :
    (runSession true initialState [⟨"https://h/a.m3u8", false⟩]).1.m3u8Link
      = some "https://h/a.m3u8"
    ∧ (findMinimalM3u8Link (some targetUrl) true true true
        [⟨"https://h/a.m3u8", false⟩] NavOutcome.success false).result
      = .error closeErrorMsg
    ∧ scrapeHandler true true true [⟨"https://h/a.m3u8", false⟩]
        NavOutcome.success false = .error closeErrorMsg := by
  refine ⟨by decide, ?_, ?_⟩ <;> rfl

/-- C4 counterexample: when `browser.close()` rejects, the `/scrape` handler
rejects as well and no `200 OK` response with a `link` field is produced,
contradicting the claim that every request receives such a response. -/
theorem c4_counterexample :
    scrapeHandler true true true [] NavOutcome.success false
      = .error closeErrorMsg
    ∧ ∀ resp : ScrapeResponse,
        scrapeHandler true true true [] NavOutcome.success false ≠ .ok resp := by
  refine ⟨rfl, ?_⟩
  intro resp h
  exact Except.noConfusion h

/-- C4 amended: for every request to GET /scrape in which the session
teardown does not fail (`browser.close` returns normally), the response is
200 OK with a body holding exactly a `link` field whose value is either null
or a string ending in ".m3u8"; timeout, setup failure and navigation failure
all surface as `link: null`.  (When `browser.close` rejects, the handler
rejects and no such response is produced.) -/
theorem c4_amended_response_shape (l p d : Bool) (tr : List Request)
    (nav : NavOutcome) :
    ∃ resp : ScrapeResponse,
      scrapeHandler l p d tr nav true = .ok resp
      ∧ resp.status = 200
      ∧ (resp.link = none ∨ ∃ u, resp.link = some u ∧ qualifies u = true) := by
  cases l with
  | false => exact ⟨{ status := 200, link := none }, rfl, rfl, Or.inl rfl⟩
  | true =>
    cases p with
    | false => exact ⟨{ status := 200, link := none }, rfl, rfl, Or.inl rfl⟩
    | true =>
      refine ⟨{ status := 200,
                link := (runSession d initialState tr).1.m3u8Link }, ?_, rfl, ?_⟩
      · simp [scrapeHandler, findMinimalM3u8Link, targetUrl_truthy]
      · cases hl : (runSession d initialState tr).1.m3u8Link with
        | none => exact Or.inl rfl
        | some u =>
          exact Or.inr ⟨u, rfl, runSession_link_qualifies d tr u hl⟩

end TestServer

namespace TestServer

/-- C5: the wait step is a race between the capture-completion signal and the
fixed 10,000 ms deadline — the await completes at the earlier of the two —
and if no qualifying request is observed before the deadline the captured
link is null. -/
theorem c5_race_with_fixed_deadline (d : Bool) (tr : List (Nat × Request))
    (h : ∀ e ∈ tr, e.1 < findTimeout → qualifies e.2.url = false) :
    findTimeout = 10000
    ∧ (∀ sig dl : Nat, promiseRace (some sig) dl = min sig dl)
    ∧ (∀ dl : Nat, promiseRace none dl = dl)
    ∧ timedResult d tr = none := by
  refine ⟨rfl, fun _ _ => rfl, fun _ => rfl, ?_⟩
  unfold timedResult
  rw [runSession_fst_of_no_qual]
  · rfl
  · intro r hr
    unfold deliveredBefore at hr
    simp only [List.mem_map, List.mem_filter, decide_eq_true_eq] at hr
    obtain ⟨e, ⟨he, hlt⟩, heq⟩ := hr
    rw [← heq]
    exact h e he hlt

/-- C5 witness: a qualifying request delivered only at 20,000 ms — after the
deadline — leaves the result null. -/
theorem c5_witness :
    (∀ e ∈ [((20000 : Nat), (⟨"https://h/a.m3u8", false⟩ : Request))],
        e.1 < findTimeout → qualifies e.2.url = false)
    ∧ timedResult true [(20000, ⟨"https://h/a.m3u8", false⟩)] = none := by
  have h : ∀ e ∈ [((20000 : Nat), (⟨"https://h/a.m3u8", false⟩ : Request))],
      e.1 < findTimeout → qualifies e.2.url = false := by decide
  exact ⟨h, (c5_race_with_fixed_deadline true
    [(20000, ⟨"https://h/a.m3u8", false⟩)] h).2.2.2⟩

/-- C6: a navigation rejection is swallowed by the attached catch, so the
result of `findMinimalM3u8Link` is identical to a successful navigation; in
particular a link captured before the navigation error is still returned,
and the rejection leaves only a console message. -/
theorem c6_navigation_failure_logged_only (l p d c : Bool) (tr : List Request)
    (msg : String) (u : String)
    (h : (runSession d initialState tr).1.m3u8Link = some u) :
    (findMinimalM3u8Link (some targetUrl) l p d tr (NavOutcome.failure msg) c).result
      = (findMinimalM3u8Link (some targetUrl) l p d tr NavOutcome.success c).result
    ∧ (findMinimalM3u8Link (some targetUrl) true true d tr
        (NavOutcome.failure msg) true).result = .ok (some u)
    ∧ (findMinimalM3u8Link (some targetUrl) true true d tr
        (NavOutcome.failure msg) true).log
      = [(LogLevel.info,
          "Navigation ended (or timed out), but M3U8 link was already found.")] := by
  have hq : qualifies u = true := runSession_link_qualifies d tr u h
  have hfal : jsFalsy (some u) = false := jsFalsy_some_of_qualifies hq
  refine ⟨?_, ?_, ?_⟩
  · cases l <;> cases p <;> cases c <;> rfl
  · simp [findMinimalM3u8Link, targetUrl_truthy, h]
  · simp [findMinimalM3u8Link, targetUrl_truthy, h, navCatchLog, hfal]

/-- C6 witness: with a captured link and a navigation timeout, the captured
link is still returned. -/
theorem c6_witness :
    (runSession true initialState
        [⟨"https://h/live.m3u8", false⟩]).1.m3u8Link = some "https://h/live.m3u8"
    ∧ (findMinimalM3u8Link (some targetUrl) true true true
        [⟨"https://h/live.m3u8", false⟩]
        (NavOutcome.failure "Navigation timeout exceeded") true).result
      = .ok (some "https://h/live.m3u8") := by
  refine ⟨by decide, ?_⟩
  exact (c6_navigation_failure_logged_only true true true true
    [⟨"https://h/live.m3u8", false⟩] "Navigation timeout exceeded"
    "https://h/live.m3u8" (by decide)).2.1

/-- C7: the handler issues at most one continue/abort resolution per
intercepted request, and when the request's decision is already resolved it
issues none — the attempted double resolution is skipped. -/
theorem c7_at_most_one_resolution (d : Bool) (s : SessionState) (r : Request) :
    resolutionsIssued (handleRequest d s r).2 ≤ 1
    ∧ (r.handled = true → resolutionsIssued (handleRequest d s r).2 = 0) := by
  have hle : ∀ f : Fate, resolutionsIssued f ≤ 1 := by
    intro f
    cases f <;> simp [resolutionsIssued]
  refine ⟨hle _, ?_⟩
  intro hh
  unfold handleRequest
  split
  · rfl
  split
  · simp [hh, resolutionsIssued]
  split
  · simp [hh, resolutionsIssued]
  · simp [hh, resolutionsIssued]

/-- C7 witness: an already-resolved request gets no resolution from the
handler. -/
theorem c7_witness :
    resolutionsIssued
      (handleRequest true initialState ⟨"https://h/a.m3u8", true⟩).2 = 0 :=
  (c7_at_most_one_resolution true initialState ⟨"https://h/a.m3u8", true⟩).2 rfl

/-- C8: a falsy (absent or empty) url makes `findMinimalM3u8Link` return null
without ever invoking `puppeteer.launch`; with a truthy url the launch is
always invoked. -/
theorem c8_no_session_without_url (url : Option String) (l p d : Bool)
    (tr : List Request) (nav : NavOutcome) (c : Bool) :
    (jsFalsyUrl url = true →
      (findMinimalM3u8Link url l p d tr nav c).result = .ok none
      ∧ (findMinimalM3u8Link url l p d tr nav c).launched = false)
    ∧ (jsFalsyUrl url = false →
      (findMinimalM3u8Link url l p d tr nav c).launched = true) := by
  constructor
  · intro h
    unfold findMinimalM3u8Link
    rw [h]
    exact ⟨rfl, rfl⟩
  · intro h
    unfold findMinimalM3u8Link
    rw [h]
    cases l <;> cases p <;> rfl

/-- C8 witness: an absent url yields null with no launch; an empty url yields
null with no launch; the hardcoded target url triggers a launch. -/
theorem c8_witness :
    (findMinimalM3u8Link none true true true [] NavOutcome.success true).result
      = .ok none
    ∧ (findMinimalM3u8Link none true true true []
        NavOutcome.success true).launched = false
    ∧ (findMinimalM3u8Link (some "") true true true []
        NavOutcome.success true).launched = false
    ∧ (findMinimalM3u8Link (some targetUrl) true true true []
        NavOutcome.success true).launched = true := by
  refine ⟨?_, ?_, ?_, ?_⟩
  · exact ((c8_no_session_without_url none true true true []
      NavOutcome.success true).1 rfl).1
  · exact ((c8_no_session_without_url none true true true []
      NavOutcome.success true).1 rfl).2
  · exact ((c8_no_session_without_url (some "") true true true []
      NavOutcome.success true).1 (by decide)).2
  · exact (c8_no_session_without_url (some targetUrl) true true true []
      NavOutcome.success true).2 targetUrl_truthy

/-- C9: the captured-link state is monotone and write-once — once `m3u8Link`
holds a value it keeps exactly that value however many further requests are
observed, the session performs exactly one assignment to it, and no session
ever performs more than one assignment. -/
theorem c9_link_write_once (d : Bool) (t1 t2 : List Request) (v : String)
    (h : (runSession d initialState t1).1.m3u8Link = some v) :
    (runSession d initialState (t1 ++ t2)).1.m3u8Link = some v
    ∧ (runSession d initialState (t1 ++ t2)).1.writes = 1
    ∧ ∀ tr : List Request, (runSession d initialState tr).1.writes ≤ 1 := by
  have hq : qualifies v = true := runSession_link_qualifies d t1 v h
  have hfal : jsFalsy (runSession d initialState t1).1.m3u8Link = false := by
    rw [h]
    exact jsFalsy_some_of_qualifies hq
  have hstable := runSession_fst_of_not_falsy d (runSession d initialState t1).1 t2 hfal
  have happ := runSession_fst_append d initialState t1 t2
  refine ⟨?_, ?_, ?_⟩
  · rw [happ, hstable, h]
  · rw [happ, hstable, runSession_writes d initialState t1 rfl rfl, h]
    rfl
  · intro tr
    rw [runSession_writes d initialState tr rfl rfl]
    split <;> simp

/-- C9 witness: after capturing from the first trace, appending more
requests (another qualifying one included) changes neither the link nor the
single write. -/
theorem c9_witness :
    (runSession true initialState
        ([⟨"https://h/a.m3u8", false⟩] ++
          [⟨"https://h/b.m3u8", false⟩, ⟨"https://h/c.png", false⟩])).1.m3u8Link
      = some "https://h/a.m3u8"
    ∧ (runSession true initialState
        ([⟨"https://h/a.m3u8", false⟩] ++
          [⟨"https://h/b.m3u8", false⟩, ⟨"https://h/c.png", false⟩])).1.writes = 1 := by
  have hc := c9_link_write_once true [⟨"https://h/a.m3u8", false⟩]
    [⟨"https://h/b.m3u8", false⟩, ⟨"https://h/c.png", false⟩]
    "https://h/a.m3u8" (by decide)
  exact ⟨hc.1, hc.2.1⟩

/-- C10: the qualifying predicate is exact, case-sensitive suffix matching on
".m3u8" — it holds exactly when the URL literally ends with those five
characters; an uppercase extension or a trailing query string does not
qualify, and such a request is continued like any other while no link is
captured. -/
theorem c10_exact_case_sensitive_suffix :
    (∀ u : String, qualifies u = true ↔ manifestSuffix.data <:+ u.data)
    ∧ qualifies "https://h/video.m3u8" = true
    ∧ qualifies "https://h/video.M3U8" = false
    ∧ qualifies "https://h/video.m3u8?token=x" = false
    ∧ handleRequest true initialState ⟨"https://h/video.M3U8", false⟩
        = (initialState, Fate.continued)
    ∧ handleRequest true initialState ⟨"https://h/video.m3u8?token=x", false⟩
        = (initialState, Fate.continued) := by
  refine ⟨fun u => ?_, by decide, by decide, by decide, by decide, by decide⟩
  simp [qualifies, List.isSuffixOf_iff_suffix]

/-- C10 witness: the suffix characterization applied at a concrete URL. -/
theorem c10_witness : manifestSuffix.data <:+ "https://h/video.m3u8".data :=
  (c10_exact_case_sensitive_suffix.1 "https://h/video.m3u8").mp (by decide)

end TestServer
